import Mathlib

/-!
Verification of the prompt-enhancement workflow service (src/src/index.ts).

The source is a three-step Cloudflare workflow (`PromptEnhancementWorkflow.run`)
plus an HTTP entrypoint (`fetch`).  Pure structure of the source — the payload
types, the per-step message construction, the sequential threading of step
outputs, the final-result assembly, and the routing/validation of the two HTTP
endpoints — is embedded directly from the source.  The durable-execution
substrate the source obtains from its hosting platform (step-result
checkpointing, retry policy, run registry, run status lifecycle) is not code
under src/; those parts are modelled from the spec and are marked as such in
their doc comments.
-/

-- ---------------------------------------------------------------------------
-- Data model (src/src/index.ts, type definitions)
-- ---------------------------------------------------------------------------

/-- Input payload expected from the user (`WorkflowInput` in the source).
`targetModel` and `tone` are optional fields; `prompt` is required by the
HTTP validator but arrives from an unchecked JSON cast, so it is optional
here too (see `RawPayload` for the pre-validation shape). -/
structure WorkflowInput where
  prompt : String
  targetModel : Option String := none
  tone : Option String := none
  deriving DecidableEq, Repr

/-- Step 1 output: analysis of the input (`AnalysisResult` in the source). -/
structure AnalysisResult where
  intent : String
  strengths : List String
  weaknesses : List String
  missing_context : Bool
  deriving DecidableEq, Repr

/-- Step 2 output: selected strategy (`StrategyResult` in the source). -/
structure StrategyResult where
  technique : String
  reasoning : String
  suggested_role : String
  deriving DecidableEq, Repr

/-- Step 3 parsed model payload: the two fields required by step 3's declared
JSON schema (`enhanced_prompt`, `changelog`). -/
structure GenResult where
  enhanced_prompt : String
  changelog : String
  deriving DecidableEq, Repr

/-- Final output (`FinalResult` in the source). -/
structure FinalResult where
  original : String
  enhanced_prompt : String
  technique_used : String
  changelog : String
  deriving DecidableEq, Repr

-- ---------------------------------------------------------------------------
-- Model-invocation boundary
-- ---------------------------------------------------------------------------

/-- One role-tagged chat message, as passed to `this.env.AI.run`. -/
structure ChatMessage where
  role : String
  content : String
  deriving DecidableEq, Repr

/-- One model invocation: the messages built by a step's work and handed to
the model-invocation collaborator.  The model id is the constant
`"@cf/meta/llama-3-8b-instruct"` for every call in the source. -/
structure AICall where
  modelId : String := "@cf/meta/llama-3-8b-instruct"
  messages : List ChatMessage
  deriving DecidableEq, Repr

/-- Failure of one unit of step work.  `schemaViolation` covers a model
payload that fails to parse or validate against the step's declared JSON
schema; `timeout` and `transport` cover the collaborator transport;
`nonRetryable` is the class the Retry Policy must not retry. -/
inductive StepError where
  | schemaViolation (stepName : String)
  | timeout
  | transport (msg : String)
  | nonRetryable (msg : String)
  deriving DecidableEq, Repr

/-- Modelled from the spec: the Retry Policy retries timeouts, transport
failures and schema-validation failures of the step's output, and must not
retry errors explicitly marked non-retryable. -/
def StepError.retryable : StepError → Bool
  | .schemaViolation _ => true
  | .timeout => true
  | .transport _ => true
  | .nonRetryable _ => false

/-- The model-invocation collaborator, one entry per step of the source
workflow.  Each entry models `this.env.AI.run` followed by
`JSON.parse(response.response)`: an `Except.error` covers transport failure
and an unparseable payload, an `Except.ok` is the parsed value of the step's
declared schema type. -/
structure AIOracle where
  analyze : AICall → Except StepError AnalysisResult
  select : AICall → Except StepError StrategyResult
  generate : AICall → Except StepError GenResult

-- ---------------------------------------------------------------------------
-- Message construction per step (src/src/index.ts lines 58-151)
-- ---------------------------------------------------------------------------

/-- System message of step 1 (`analyze-prompt`), source lines 59-61. -/
def analyzeSystemMsg : String :=
  "You are a senior Prompt Engineer. Analyze the user\x27s prompt. \n            Identify the core intent, strengths, and specific weaknesses (ambiguity, lack of context). \n            Output valid JSON only."

/-- The model invocation built by step 1's work, source lines 63-83. -/
def analyzeCall (prompt : String) : AICall :=
  { messages :=
      [ { role := "system", content := analyzeSystemMsg },
        { role := "user", content := "Prompt: \"" ++ prompt ++ "\"" } ] }

/-- JSON string escaping for `JSON.stringify` of the analysis record (only
the escapes relevant to plain text: backslash and double quote). -/
def escapeJsonString (s : String) : String :=
  String.join (s.toList.map fun c =>
    if c = '\\' then "\\\\" else if c = '"' then "\\\"" else String.singleton c)

/-- `JSON.stringify` of a string value. -/
def stringifyString (s : String) : String :=
  "\"" ++ escapeJsonString s ++ "\""

/-- `JSON.stringify` of an array of strings. -/
def stringifyStringArray (xs : List String) : String :=
  "[" ++ String.intercalate "," (xs.map stringifyString) ++ "]"

/-- `JSON.stringify(analysis)` as used in step 2's user message, source
line 97: field order follows the object built by step 1's parse. -/
def stringifyAnalysis (a : AnalysisResult) : String :=
  "\x7b\"intent\":" ++ stringifyString a.intent ++
  ",\"strengths\":" ++ stringifyStringArray a.strengths ++
  ",\"weaknesses\":" ++ stringifyStringArray a.weaknesses ++
  ",\"missing_context\":" ++ (if a.missing_context then "true" else "false") ++ "\x7d"

/-- System message of step 2 (`select-strategy`), source lines 93-95. -/
def selectSystemMsg : String :=
  "Based on the prompt analysis, select the best prompting technique.\n            Options: CO-STAR (Context, Objective, Style, Tone, Audience, Response), Chain-of-Thought, Role-Prompting, Few-Shot.\n            Output valid JSON only."

/-- The model invocation built by step 2's work, source lines 97-116: the
user message serializes step 1's analysis and nothing else. -/
def selectCall (analysis : AnalysisResult) : AICall :=
  { messages :=
      [ { role := "system", content := selectSystemMsg },
        { role := "user", content := "Analysis: " ++ stringifyAnalysis analysis } ] }

/-- System message of step 3 (`generate-enhancement`), source lines 126-131:
it interpolates the strategy's technique and suggested role, the target
model, the tone, and the weaknesses of step 1's analysis. -/
def genSystemMsg (strategy : StrategyResult) (analysis : AnalysisResult)
    (targetModel tone : String) : String :=
  "You are an expert Prompt Engineer. Rewrite the original prompt using the " ++
  strategy.technique ++ " technique.\n            Role: " ++
  strategy.suggested_role ++ ".\n            Target Model: " ++
  targetModel ++ ".\n            Tone: " ++ tone ++
  ".\n            Address these weaknesses: " ++
  String.intercalate ", " analysis.weaknesses ++
  ".\n            Output valid JSON only."

/-- The model invocation built by step 3's work, source lines 126-151. -/
def genCall (strategy : StrategyResult) (analysis : AnalysisResult)
    (targetModel tone prompt : String) : AICall :=
  { messages :=
      [ { role := "system", content := genSystemMsg strategy analysis targetModel tone },
        { role := "user", content := "Original Prompt: \"" ++ prompt ++ "\"" } ] }

-- ---------------------------------------------------------------------------
-- The workflow body (src/src/index.ts, PromptEnhancementWorkflow.run)
-- ---------------------------------------------------------------------------

/-- A terminal step failure carried out of the run: the failing step's name
and its error. -/
structure RunFailure where
  step : String
  error : StepError
  deriving DecidableEq, Repr

/-- Outcome of driving one run: the final result or the failure, together
with the model invocations made, in order, tagged with their step names. -/
structure RunOutcome where
  result : Except RunFailure FinalResult
  calls : List (String × AICall)

/-- The ordered step names of the workflow, as passed to `step.do`. -/
def stepNames : List String :=
  ["analyze-prompt", "select-strategy", "generate-enhancement"]

/-- The body of `PromptEnhancementWorkflow.run` after the payload has been
destructured (source lines 53-165): drives the three steps in order, each
step's work building its messages from the values in scope and calling the
model; a step failure stops the run there.  The hosting platform's
checkpoint/retry layer around each `step.do` is modelled separately
(`executeStep`); this function is the data flow of the source body. -/
def runSteps (prompt targetModel tone : String) (ai : AIOracle) : RunOutcome :=
  match ai.analyze (analyzeCall prompt) with
  | .error e =>
      { result := .error { step := "analyze-prompt", error := e },
        calls := [("analyze-prompt", analyzeCall prompt)] }
  | .ok analysis =>
      match ai.select (selectCall analysis) with
      | .error e =>
          { result := .error { step := "select-strategy", error := e },
            calls := [("analyze-prompt", analyzeCall prompt),
                      ("select-strategy", selectCall analysis)] }
      | .ok strategy =>
          match ai.generate (genCall strategy analysis targetModel tone prompt) with
          | .error e =>
              { result := .error { step := "generate-enhancement", error := e },
                calls := [("analyze-prompt", analyzeCall prompt),
                          ("select-strategy", selectCall analysis),
                          ("generate-enhancement",
                            genCall strategy analysis targetModel tone prompt)] }
          | .ok g =>
              { result := .ok
                  { original := prompt,
                    enhanced_prompt := g.enhanced_prompt,
                    technique_used := strategy.technique,
                    changelog := g.changelog },
                calls := [("analyze-prompt", analyzeCall prompt),
                          ("select-strategy", selectCall analysis),
                          ("generate-enhancement",
                            genCall strategy analysis targetModel tone prompt)] }

/-- `PromptEnhancementWorkflow.run` (source lines 51-165): destructures the
payload with defaults `tone = "professional"` and
`targetModel = "General LLM"` (source line 52), then runs the step
sequence. -/
def runWorkflow (p : WorkflowInput) (ai : AIOracle) : RunOutcome :=
  runSteps p.prompt (p.targetModel.getD "General LLM") (p.tone.getD "professional") ai

/-- Run status (`queued | running | succeeded | failed`). -/
inductive Status where
  | queued
  | running
  | succeeded
  | failed
  deriving DecidableEq, Repr

/-- Modelled from the spec: the hosting platform marks a run `succeeded`
when `run` returns its value and `failed` when a step failure propagates
out; this maps a finished run body's result to that terminal status. -/
def statusOf {α : Type} (r : Except RunFailure α) : Status :=
  match r with
  | .ok _ => .succeeded
  | .error _ => .failed

-- ---------------------------------------------------------------------------
-- Durable-execution substrate (modelled from the spec)
-- ---------------------------------------------------------------------------

/-- Modelled from the spec: the Retry Policy — bounded exponential backoff
(base delay doubling per attempt) capped at a maximum attempt count. -/
structure RetryPolicy where
  maxAttempts : Nat
  baseDelay : Nat
  deriving DecidableEq, Repr

/-- Modelled from the spec: `nextDelay(attemptNumber) -> duration | giveUp`
— a backoff delay before the next attempt while under the cap, `none` (give
up) once the cap is reached. -/
def RetryPolicy.nextDelay (p : RetryPolicy) (attempt : Nat) : Option Nat :=
  if attempt < p.maxAttempts then some (p.baseDelay * 2 ^ (attempt - 1)) else none

/-- Modelled from the spec: the Step Executor's attempt loop.  `work` takes
the attempt number; on success the loop stops, on a retryable failure it
consults the Retry Policy and either retries with the attempt count
incremented or propagates the failure.  `fuel` bounds the recursion and is
initialized to the policy's attempt cap; the pair's second component counts
how many times `work` was invoked. -/
def runAttempts {α : Type} (policy : RetryPolicy) (work : Nat → Except StepError α) :
    Nat → Nat → Except StepError α × Nat
  | _, 0 => (.error (.nonRetryable "retry budget exhausted"), 0)
  | attempt, fuel + 1 =>
      match work attempt with
      | .ok v => (.ok v, 1)
      | .error e =>
          if e.retryable then
            match policy.nextDelay attempt with
            | some _ =>
                let r := runAttempts policy work (attempt + 1) fuel
                (r.1, r.2 + 1)
            | none => (.error e, 1)
          else (.error e, 1)

/-- Modelled from the spec: the Step Executor,
`execute(runID, stepName, input, work)`.  It first queries the StepResult
Store for `(runID, stepName)`; if a result is present it is returned
immediately and the work is never invoked (the replay path).  Otherwise it
runs the attempt loop starting at attempt 1 with the policy's cap.  The
second component counts invocations of `work`. -/
def executeStep {α : Type} (store : String → String → Option α)
    (runId stepName : String) (policy : RetryPolicy)
    (work : Nat → Except StepError α) : Except StepError α × Nat :=
  match store runId stepName with
  | some v => (.ok v, 0)
  | none => runAttempts policy work 1 policy.maxAttempts

/-- Modelled from the spec: the Workflow Engine's handling of one step —
a step failure propagated by the Step Executor becomes a terminal run
failure carrying the step's name and error. -/
def driveStep {α : Type} (store : String → String → Option α)
    (runId stepName : String) (policy : RetryPolicy)
    (work : Nat → Except StepError α) : Except RunFailure α × Nat :=
  match executeStep store runId stepName policy work with
  | (.ok v, n) => (.ok v, n)
  | (.error e, n) => (.error { step := stepName, error := e }, n)

/-- Modelled from the spec: the Workflow Engine's per-run status
transitions: `queued → running → (succeeded | failed)`. -/
inductive StatusTrans : Status → Status → Prop where
  | dispatch : StatusTrans .queued .running
  | succeed : StatusTrans .running .succeeded
  | fail : StatusTrans .running .failed

/-- Position of a status along the forward lifecycle. -/
def statusRank : Status → Nat
  | .queued => 0
  | .running => 1
  | .succeeded => 2
  | .failed => 2

-- ---------------------------------------------------------------------------
-- JSON payloads and schema decoding (step 1's declared schema)
-- ---------------------------------------------------------------------------

/-- A JSON value, the result of `JSON.parse` on a model payload. -/
inductive Json where
  | str (s : String)
  | num (n : Int)
  | bool (b : Bool)
  | null
  | arr (xs : List Json)
  | obj (fields : List (String × Json))

/-- Field lookup on a JSON object. -/
def Json.getField : Json → String → Option Json
  | .obj fields, k => fields.lookup k
  | _, _ => none

/-- A JSON string value, or nothing. -/
def Json.asString : Json → Option String
  | .str s => some s
  | _ => none

/-- A JSON boolean value, or nothing. -/
def Json.asBool : Json → Option Bool
  | .bool b => some b
  | _ => none

/-- All-strings view of a JSON array. -/
def Json.asStringList : Json → Option (List String)
  | .arr xs => xs.mapM Json.asString
  | _ => none

/-- Modelled from the spec: validated deserialization of step 1's model
payload against its declared JSON schema (source lines 72-81: required
fields `intent : string`, `strengths : string[]`, `weaknesses : string[]`,
`missing_context : boolean`).  The source itself performs `JSON.parse` with
an unchecked cast and leaves schema enforcement to the platform; the spec
makes the validation explicit. -/
def decodeAnalysisJson (j : Json) : Option AnalysisResult := do
  let intent ← (← j.getField "intent").asString
  let strengths ← (← j.getField "strengths").asStringList
  let weaknesses ← (← j.getField "weaknesses").asStringList
  let missing ← (← j.getField "missing_context").asBool
  pure { intent := intent, strengths := strengths,
         weaknesses := weaknesses, missing_context := missing }

/-- Modelled from the spec: step 1's work seen at the validation boundary —
a payload failing to parse or validate against the declared schema is a
schema-violation step failure, the step-transient class. -/
def analysisWork (j : Json) : Except StepError AnalysisResult :=
  match decodeAnalysisJson j with
  | some a => .ok a
  | none => .error (.schemaViolation "analyze-prompt")

-- ---------------------------------------------------------------------------
-- HTTP entrypoint (src/src/index.ts, fetch)
-- ---------------------------------------------------------------------------

/-- The JSON body of a submission request before validation: every field of
`WorkflowInput` may be absent (`req.json` performs an unchecked cast). -/
structure RawPayload where
  prompt : Option String := none
  targetModel : Option String := none
  tone : Option String := none
  deriving DecidableEq, Repr

/-- JavaScript falsiness of `payload.prompt` (source line 181,
`!payload.prompt`): true when the field is absent or the empty string. -/
def promptFalsy : Option String → Bool
  | none => true
  | some s => s.isEmpty

/-- Response body variants produced by the `fetch` handler. -/
inductive ResponseBody where
  | errorMsg (msg : String)
  | started (id : String) (monitorUrl : String)
  | snapshot (st : Status)
  | plainText (t : String)
  deriving DecidableEq, Repr

/-- An HTTP response: status code and JSON (or plain-text) body. -/
structure HttpResponse where
  status : Nat
  body : ResponseBody
  deriving DecidableEq, Repr

/-- A response in the client-error class (4xx), as distinct from the
internal-failure class (5xx). -/
def HttpResponse.isClientError (r : HttpResponse) : Bool :=
  400 ≤ r.status && r.status < 500

/-- Modelled from the spec: the Run Registry, mapping run ids to their last
known status snapshot; `env.PROMPT_WORKFLOW.create` registers a new run in
it and `env.PROMPT_WORKFLOW.get` looks one up. -/
def Registry : Type := List (String × Status)

/-- Registry lookup: `get(runID) -> snapshot | not-found`. -/
def Registry.find (reg : Registry) (id : String) : Option Status :=
  List.lookup id reg

/-- `POST /enhance` (source lines 177-194): if `payload.prompt` is falsy,
respond 400 `Missing 'prompt' in body` without creating anything; otherwise
create a run under the fresh id (registered `queued` in the Run Registry)
and respond with `status:"started"`, the id and the monitor URL. -/
def postEnhance (reg : Registry) (newId : String) (payload : RawPayload) :
    HttpResponse × Registry :=
  if promptFalsy payload.prompt then
    ({ status := 400, body := .errorMsg "Missing \x27prompt\x27 in body" }, reg)
  else
    ({ status := 200,
       body := .started newId ("/status?id=" ++ newId) },
     (newId, Status.queued) :: reg)

/-- `GET /status?id=...` (source lines 198-208): 400 when the `id` query
parameter is absent; 404 `Instance not found` when the registry has no run
under the id (the source's `env.PROMPT_WORKFLOW.get` throws); otherwise the
run's status snapshot with code 200. -/
def getStatus (reg : Registry) (idParam : Option String) : HttpResponse :=
  match idParam with
  | none => { status := 400, body := .errorMsg "Missing \x27id\x27" }
  | some i =>
      match reg.find i with
      | none => { status := 404, body := .errorMsg "Instance not found" }
      | some st => { status := 200, body := .snapshot st }

-- ---------------------------------------------------------------------------
-- Concrete demonstration values (used by witnesses)
-- ---------------------------------------------------------------------------

/-- A concrete step-1 analysis, from the spec's end-to-end scenario. -/
def demoAnalysis : AnalysisResult :=
  { intent := "draft email", strengths := [], weaknesses := ["no recipient"],
    missing_context := true }

/-- A concrete step-2 strategy, from the spec's end-to-end scenario. -/
def demoStrategy : StrategyResult :=
  { technique := "Role-Prompting", reasoning := "matches intent",
    suggested_role := "assistant" }

/-- A concrete step-3 payload, from the spec's end-to-end scenario. -/
def demoGen : GenResult :=
  { enhanced_prompt := "You are an assistant. Write an email to a named recipient.",
    changelog := "added role and recipient context" }

/-- An oracle on which every step succeeds with the demo values. -/
def demoOracle : AIOracle :=
  { analyze := fun _ => .ok demoAnalysis,
    select := fun _ => .ok demoStrategy,
    generate := fun _ => .ok demoGen }

/-- An oracle whose second step always fails with a timeout. -/
def demoFailOracle : AIOracle :=
  { analyze := fun _ => .ok demoAnalysis,
    select := fun _ => .error .timeout,
    generate := fun _ => .ok demoGen }

-- ---------------------------------------------------------------------------
-- C1
-- ---------------------------------------------------------------------------

/-- C1: for every run whose three steps all succeed, the run terminates with
status `succeeded` and its final result is
`{original, enhanced_prompt, technique_used, changelog}` where `original` is
the submitted prompt, `technique_used` is the technique field of step 2's
output, and `enhanced_prompt` and `changelog` come from step 3's parsed
model payload. -/
theorem run_all_steps_succeed_final_result (p : WorkflowInput) (ai : AIOracle)
    (a : AnalysisResult) (s : StrategyResult) (g : GenResult)
    (h1 : ai.analyze (analyzeCall p.prompt) = .ok a)
    (h2 : ai.select (selectCall a) = .ok s)
    (h3 : ai.generate (genCall s a (p.targetModel.getD "General LLM")
            (p.tone.getD "professional") p.prompt) = .ok g) :
    (runWorkflow p ai).result =
      .ok { original := p.prompt, enhanced_prompt := g.enhanced_prompt,
            technique_used := s.technique, changelog := g.changelog } ∧
    statusOf (runWorkflow p ai).result = .succeeded := by
  simp [runWorkflow, runSteps, h1, h2, h3, statusOf]

/-- Witness for C1 at the spec's scenario input. -/
theorem run_all_steps_succeed_final_result_witness :
    (runWorkflow { prompt := "write an email" } demoOracle).result =
      .ok { original := "write an email",
            enhanced_prompt := demoGen.enhanced_prompt,
            technique_used := "Role-Prompting",
            changelog := "added role and recipient context" } ∧
    statusOf (runWorkflow { prompt := "write an email" } demoOracle).result = .succeeded :=
  run_all_steps_succeed_final_result { prompt := "write an email" } demoOracle
    demoAnalysis demoStrategy demoGen rfl rfl rfl

-- ---------------------------------------------------------------------------
-- C2
-- ---------------------------------------------------------------------------

/-- The claim as stated for step 3: the input consumed by step 3 (the model
invocation its work builds) is determined by step 2's persisted output and
nothing else. -/
def generateInputOnlyFromStrategy : Prop :=
  ∀ (s : StrategyResult) (a a' : AnalysisResult) (tm tm' tn tn' pr pr' : String),
    genCall s a tm tn pr = genCall s a' tm' tn' pr'

set_option maxRecDepth 100000 in
/-- C2 counterexample: with step 2's output fixed, two runs whose step-1
analyses differ in their weaknesses hand step 3 different inputs, so step
3's consumed input is not a function of step 2's output alone. -/
theorem generate_input_not_only_from_strategy : ¬ generateInputOnlyFromStrategy := by
  intro h
  have heq := h demoStrategy
    { intent := "i", strengths := [], weaknesses := ["w1"], missing_context := true }
    { intent := "i", strengths := [], weaknesses := ["w2"], missing_context := true }
    "General LLM" "General LLM" "professional" "professional" "p" "p"
  have hne : genCall demoStrategy
      { intent := "i", strengths := [], weaknesses := ["w1"], missing_context := true }
      "General LLM" "professional" "p" ≠
    genCall demoStrategy
      { intent := "i", strengths := [], weaknesses := ["w2"], missing_context := true }
      "General LLM" "professional" "p" := by decide
  exact hne heq

/-- C2 amended: step 2's consumed input is exactly a function of step 1's
persisted output (the serialized analysis), while step 3's consumed input is
a function of step 2's output together with step 1's output and the run's
input payload (prompt, tone, targetModel). -/
theorem step_inputs_from_prior_outputs (p : WorkflowInput) (ai : AIOracle)
    (a : AnalysisResult) (s : StrategyResult)
    (h1 : ai.analyze (analyzeCall p.prompt) = .ok a)
    (h2 : ai.select (selectCall a) = .ok s) :
    (runWorkflow p ai).calls.get? 1 = some ("select-strategy", selectCall a) ∧
    (runWorkflow p ai).calls.get? 2 = some ("generate-enhancement",
      genCall s a (p.targetModel.getD "General LLM") (p.tone.getD "professional") p.prompt) := by
  cases h3 : ai.generate (genCall s a (p.targetModel.getD "General LLM")
      (p.tone.getD "professional") p.prompt) <;>
    simp [runWorkflow, runSteps, h1, h2, h3]

/-- Witness for the amended C2 at the demo oracle. -/
theorem step_inputs_from_prior_outputs_witness :
    (runWorkflow { prompt := "write an email" } demoOracle).calls.get? 1 =
      some ("select-strategy", selectCall demoAnalysis) ∧
    (runWorkflow { prompt := "write an email" } demoOracle).calls.get? 2 =
      some ("generate-enhancement",
        genCall demoStrategy demoAnalysis "General LLM" "professional" "write an email") :=
  step_inputs_from_prior_outputs { prompt := "write an email" } demoOracle
    demoAnalysis demoStrategy rfl rfl

-- ---------------------------------------------------------------------------
-- C3
-- ---------------------------------------------------------------------------

/-- C3: a submission whose payload lacks the required `prompt` field
(including an empty payload) is answered with a 400 client error — the 4xx
class, distinct from internal failures — and no run is created: the
registry is unchanged, so no run instance exists afterwards under any id
that did not already exist. -/
theorem enhance_missing_prompt_rejected (reg : Registry) (newId : String)
    (payload : RawPayload) (h : promptFalsy payload.prompt = true) :
    (postEnhance reg newId payload).1 =
      { status := 400, body := .errorMsg "Missing \x27prompt\x27 in body" } ∧
    (postEnhance reg newId payload).1.isClientError = true ∧
    (postEnhance reg newId payload).2 = reg := by
  simp [postEnhance, h, HttpResponse.isClientError]

/-- Witness for C3: the empty payload against the empty registry. -/
theorem enhance_missing_prompt_rejected_witness :
    (postEnhance [] "id-1" {}).1 =
      { status := 400, body := .errorMsg "Missing \x27prompt\x27 in body" } ∧
    (postEnhance [] "id-1" {}).1.isClientError = true ∧
    (postEnhance [] "id-1" {}).2 = [] :=
  enhance_missing_prompt_rejected [] "id-1" {} rfl

-- ---------------------------------------------------------------------------
-- C4
-- ---------------------------------------------------------------------------

/-- C4: a status query for an id with no run answers 404 not-found; a query
for an existing run answers 200 with the run's snapshot — in particular a
run that exists but has not started yet answers 200 with snapshot `queued`,
which differs from the not-found response. -/
theorem status_query_not_found_vs_snapshot (reg : Registry) (i : String) :
    (reg.find i = none →
      getStatus reg (some i) = { status := 404, body := .errorMsg "Instance not found" }) ∧
    (∀ st, reg.find i = some st →
      getStatus reg (some i) = { status := 200, body := .snapshot st }) ∧
    ({ status := 200, body := .snapshot Status.queued } : HttpResponse) ≠
      { status := 404, body := .errorMsg "Instance not found" } := by
  refine ⟨fun h => by simp [getStatus, h], fun st h => by simp [getStatus, h], by decide⟩

/-- Witness for C4: an unknown id on the empty registry, and a queued run. -/
theorem status_query_not_found_vs_snapshot_witness :
    getStatus [] (some "missing-id") =
      { status := 404, body := .errorMsg "Instance not found" } ∧
    getStatus [("run-1", Status.queued)] (some "run-1") =
      { status := 200, body := .snapshot Status.queued } :=
  ⟨(status_query_not_found_vs_snapshot [] "missing-id").1 rfl,
   (status_query_not_found_vs_snapshot [("run-1", Status.queued)] "run-1").2.1 Status.queued rfl⟩

-- ---------------------------------------------------------------------------
-- C5
-- ---------------------------------------------------------------------------

/-- C5: re-driving a run when a StepResult is already stored for a step
returns the stored result and never re-invokes the step's work — the
invocation count is 0 whatever the work would do. -/
theorem replay_returns_stored_without_work (store : String → String → Option Nat)
    (runId stepName : String) (policy : RetryPolicy)
    (work : Nat → Except StepError Nat) (v : Nat)
    (h : store runId stepName = some v) :
    executeStep store runId stepName policy work = (.ok v, 0) := by
  simp [executeStep, h]

/-- Witness for C5: a store holding 7 for the step, against work that would
always fail if it were ever invoked. -/
theorem replay_returns_stored_without_work_witness :
    executeStep (fun _ _ => some 7) "run-1" "analyze-prompt"
      { maxAttempts := 3, baseDelay := 100 } (fun _ => .error .timeout) = (.ok 7, 0) :=
  replay_returns_stored_without_work (fun _ _ => some 7) "run-1" "analyze-prompt"
    { maxAttempts := 3, baseDelay := 100 } (fun _ => .error .timeout) 7 rfl

-- ---------------------------------------------------------------------------
-- C6
-- ---------------------------------------------------------------------------

/-- C6: when a step fails terminally, the run reaches `failed`, the failure
records that step's name (one of the workflow's step names), and the model
invocations made are exactly the step sequence up to and including the
failing step — no later step's work runs. -/
theorem step_failure_stops_run (p : WorkflowInput) (ai : AIOracle) (f : RunFailure)
    (h : (runWorkflow p ai).result = .error f) :
    statusOf (runWorkflow p ai).result = .failed ∧
    ∃ k, k < 3 ∧ stepNames.get? k = some f.step ∧
      (runWorkflow p ai).calls.map Prod.fst = stepNames.take (k + 1) := by
  refine ⟨by rw [h]; rfl, ?_⟩
  cases hA : ai.analyze (analyzeCall p.prompt) with
  | error e =>
      simp only [runWorkflow, runSteps, hA, Except.error.injEq] at h
      refine ⟨0, by omega, ?_, ?_⟩ <;> simp [runWorkflow, runSteps, hA, ← h, stepNames]
  | ok a =>
      cases hS : ai.select (selectCall a) with
      | error e =>
          simp only [runWorkflow, runSteps, hA, hS, Except.error.injEq] at h
          refine ⟨1, by omega, ?_, ?_⟩ <;> simp [runWorkflow, runSteps, hA, hS, ← h, stepNames]
      | ok s =>
          cases hG : ai.generate (genCall s a (p.targetModel.getD "General LLM")
              (p.tone.getD "professional") p.prompt) with
          | error e =>
              simp only [runWorkflow, runSteps, hA, hS, hG, Except.error.injEq] at h
              refine ⟨2, by omega, ?_, ?_⟩ <;> simp [runWorkflow, runSteps, hA, hS, hG, ← h, stepNames]
          | ok g =>
              simp [runWorkflow, runSteps, hA, hS, hG] at h

/-- Witness for C6: a run whose second step times out. -/
theorem step_failure_stops_run_witness :
    statusOf (runWorkflow { prompt := "write an email" } demoFailOracle).result = .failed ∧
    ∃ k, k < 3 ∧ stepNames.get? k = some (RunFailure.step { step := "select-strategy", error := .timeout }) ∧
      (runWorkflow { prompt := "write an email" } demoFailOracle).calls.map Prod.fst =
        stepNames.take (k + 1) :=
  step_failure_stops_run { prompt := "write an email" } demoFailOracle
    { step := "select-strategy", error := .timeout } rfl

-- ---------------------------------------------------------------------------
-- C7
-- ---------------------------------------------------------------------------

/-- C7: a model payload that fails to parse or validate against step 1's
declared schema fails the step with a schema-violation error that the Retry
Policy classifies as retryable; with the cap not yet reached, the Step
Executor retries the work instead of surfacing an unhandled error, and a
second successful attempt completes the step. -/
theorem schema_failure_is_retryable_step_failure (j : Json) (e : StepError)
    (policy : RetryPolicy) (v : AnalysisResult)
    (h : analysisWork j = .error e) (hcap : policy.maxAttempts = 3) :
    e.retryable = true ∧
    executeStep (fun _ _ => none) "run-1" "analyze-prompt" policy
      (fun att => if att = 1 then analysisWork j else .ok v) = (.ok v, 2) := by
  have he : e = StepError.schemaViolation "analyze-prompt" := by
    cases hd : decodeAnalysisJson j with
    | some a => simp [analysisWork, hd] at h
    | none =>
        simp only [analysisWork, hd, Except.error.injEq] at h
        exact h.symm
  subst he
  refine ⟨rfl, ?_⟩
  simp [executeStep, hcap, runAttempts, h, RetryPolicy.nextDelay, StepError.retryable]

/-- Witness for C7: the empty JSON object, which lacks every required field
of step 1's schema. -/
theorem schema_failure_is_retryable_step_failure_witness :
    StepError.retryable (.schemaViolation "analyze-prompt") = true ∧
    executeStep (fun _ _ => none) "run-1" "analyze-prompt"
      { maxAttempts := 3, baseDelay := 100 }
      (fun att => if att = 1 then analysisWork (Json.obj []) else .ok demoAnalysis) =
      (.ok demoAnalysis, 2) :=
  schema_failure_is_retryable_step_failure (Json.obj [])
    (.schemaViolation "analyze-prompt") { maxAttempts := 3, baseDelay := 100 }
    demoAnalysis rfl rfl

-- ---------------------------------------------------------------------------
-- C8
-- ---------------------------------------------------------------------------

/-- Helper: an attempt loop over work that fails retryably on every attempt
consumes all its fuel and reports the last attempt's error, invoking the
work exactly `fuel` times. -/
theorem runAttempts_all_fail {α : Type} (policy : RetryPolicy)
    (work : Nat → Except StepError α) (err : Nat → StepError)
    (hw : ∀ n, work n = .error (err n)) (hr : ∀ n, (err n).retryable = true) :
    ∀ fuel attempt, 1 ≤ fuel → attempt + fuel = policy.maxAttempts + 1 →
      runAttempts policy work attempt fuel = (.error (err policy.maxAttempts), fuel) := by
  intro fuel
  induction fuel with
  | zero => intro attempt h1; omega
  | succ f ih =>
      intro attempt _ h2
      have hmax : attempt + f = policy.maxAttempts := by omega
      rcases Nat.eq_zero_or_pos f with hf | hf
      · subst hf
        have ha : attempt = policy.maxAttempts := by omega
        subst ha
        simp [runAttempts, hw policy.maxAttempts, hr policy.maxAttempts,
          RetryPolicy.nextDelay]
      · have hlt : attempt < policy.maxAttempts := by omega
        have hrec := ih (attempt + 1) (by omega) (by omega)
        simp [runAttempts, hw attempt, hr attempt, RetryPolicy.nextDelay, hlt, hrec]

/-- C8: a step whose work fails retryably on every attempt exhausts the
Retry Policy's attempt cap after exactly `maxAttempts` invocations — a
finite number — and the run reaches `failed` with that step's name
recorded in the failure. -/
theorem always_failing_step_exhausts_cap {α : Type}
    (runId stepName : String) (policy : RetryPolicy)
    (work : Nat → Except StepError α) (err : Nat → StepError)
    (h1 : 1 ≤ policy.maxAttempts)
    (hw : ∀ n, work n = .error (err n)) (hr : ∀ n, (err n).retryable = true) :
    driveStep (fun _ _ => none) runId stepName policy work =
      (.error { step := stepName, error := err policy.maxAttempts }, policy.maxAttempts) ∧
    statusOf (driveStep (fun _ _ => none) runId stepName policy work).1 = .failed := by
  have hrun := runAttempts_all_fail policy work err hw hr policy.maxAttempts 1 h1 (by omega)
  refine ⟨?_, ?_⟩ <;> simp [driveStep, executeStep, hrun, statusOf]

/-- Witness for C8: work that times out on every attempt, under a cap of 3. -/
theorem always_failing_step_exhausts_cap_witness :
    driveStep (fun _ _ => none) "run-1" "analyze-prompt"
      { maxAttempts := 3, baseDelay := 100 }
      (fun _ => (.error .timeout : Except StepError Nat)) =
      (.error { step := "analyze-prompt", error := .timeout }, 3) ∧
    statusOf (driveStep (fun _ _ => none) "run-1" "analyze-prompt"
      { maxAttempts := 3, baseDelay := 100 }
      (fun _ => (.error .timeout : Except StepError Nat))).1 = .failed :=
  always_failing_step_exhausts_cap "run-1" "analyze-prompt"
    { maxAttempts := 3, baseDelay := 100 }
    (fun _ => (.error .timeout : Except StepError Nat)) (fun _ => .timeout)
    (by decide) (fun _ => rfl) (fun _ => rfl)

-- ---------------------------------------------------------------------------
-- C9
-- ---------------------------------------------------------------------------

/-- C9: every engine status transition moves strictly forward along
`queued → running → (succeeded | failed)`, and no transition leaves
`succeeded` or `failed` — a terminal run is never mutated again. -/
theorem status_moves_forward_only (s t : Status) (h : StatusTrans s t) :
    statusRank s < statusRank t ∧
    (∀ u, ¬ StatusTrans Status.succeeded u) ∧
    (∀ u, ¬ StatusTrans Status.failed u) := by
  refine ⟨?_, ?_, ?_⟩
  · cases h <;> simp [statusRank]
  · intro u hu
    cases hu
  · intro u hu
    cases hu

/-- Witness for C9: the dispatch transition `queued → running`. -/
theorem status_moves_forward_only_witness :
    statusRank Status.queued < statusRank Status.running ∧
    ¬ StatusTrans Status.succeeded Status.running ∧
    ¬ StatusTrans Status.failed Status.running := by
  obtain ⟨h1, h2, h3⟩ :=
    status_moves_forward_only Status.queued Status.running StatusTrans.dispatch
  exact ⟨h1, h2 Status.running, h3 Status.running⟩

-- ---------------------------------------------------------------------------
-- C10
-- ---------------------------------------------------------------------------

/-- Helper: the first two model invocations of the step sequence — the
messages of steps 1 and 2 — do not depend on the target model or the tone.
-/
theorem runSteps_calls_take_two (pr : String) (ai : AIOracle) (a1 b1 a2 b2 : String) :
    (runSteps pr a1 b1 ai).calls.take 2 = (runSteps pr a2 b2 ai).calls.take 2 := by
  cases hA : ai.analyze (analyzeCall pr) with
  | error e => simp [runSteps, hA]
  | ok a =>
      cases hS : ai.select (selectCall a) with
      | error e => simp [runSteps, hA, hS]
      | ok s =>
          cases hG1 : ai.generate (genCall s a a1 b1 pr) <;>
            cases hG2 : ai.generate (genCall s a a2 b2 pr) <;>
              simp [runSteps, hA, hS, hG1, hG2]

/-- C10: a payload omitting `tone` runs exactly as if `tone` were
`"professional"`, and one omitting `targetModel` as if it were
`"General LLM"` — the whole run outcome, result and calls alike, is the
same; moreover the defaults reach only the generation step's instructions:
the messages of steps 1 and 2 are unchanged under any choice of `tone` and
`targetModel`. -/
theorem omitted_tone_target_use_defaults (p : WorkflowInput) (ai : AIOracle)
    (h1 : p.tone = none) (h2 : p.targetModel = none) :
    runWorkflow p ai =
      runWorkflow { prompt := p.prompt, targetModel := some "General LLM",
                    tone := some "professional" } ai ∧
    ∀ tm tn : Option String,
      (runWorkflow { prompt := p.prompt, targetModel := tm, tone := tn } ai).calls.take 2 =
        (runWorkflow p ai).calls.take 2 := by
  constructor
  · simp [runWorkflow, h1, h2]
  · intro tm tn
    simp only [runWorkflow, h1, h2]
    exact runSteps_calls_take_two p.prompt ai (tm.getD "General LLM") (tn.getD "professional")
      (Option.getD none "General LLM") (Option.getD none "professional")

/-- Witness for C10 at the scenario input and the demo oracle. -/
theorem omitted_tone_target_use_defaults_witness :
    runWorkflow { prompt := "write an email" } demoOracle =
      runWorkflow { prompt := "write an email", targetModel := some "General LLM",
                    tone := some "professional" } demoOracle ∧
    (runWorkflow { prompt := "write an email", targetModel := some "GPT-4",
                   tone := some "creative" } demoOracle).calls.take 2 =
      (runWorkflow { prompt := "write an email" } demoOracle).calls.take 2 := by
  obtain ⟨h1, h2⟩ :=
    omitted_tone_target_use_defaults { prompt := "write an email" } demoOracle rfl rfl
  exact ⟨h1, h2 (some "GPT-4") (some "creative")⟩
